import Mathlib

/-!
Verification development for the virtual-repository schema and mapping layer of
`terraform-provider-artifactory` (`pkg/artifactory/resource/repository/virtual/virtual.go`).

The Go source declares:
  * two parameter structs (`VirtualRepositoryBaseParams` and
    `VirtualRepositoryBaseParamsWithRetrievalCachePeriodSecs`) with JSON tags,
  * two static package-type classification lists,
  * a schema table `BaseVirtualRepoSchema` of attribute descriptors,
  * two unpack functions reading a Terraform resource-data accessor.

The embedding below translates each of those declarations.  The generic accessor
(`util.ResourceData`) and the SDK validation helpers live outside this repository;
they are modelled by their documented semantics: an accessor is the bag of
materialized values its typed getters return.
-/

namespace Virtual

/-- The Terraform resource-data accessor, restricted to the attributes declared in
`BaseVirtualRepoSchema`.  Each field holds the value the corresponding typed getter
(`GetString`, `GetBool`, `GetList`, `GetSet`, `GetInt`) returns for that key: strings
materialize as `String` (an unset optional string reads as `""`), lists and sets as
`List String`, the int as `Int`.  The field `default_deployment_repo` is kept
tri-state (`none` = never set, `some s` = explicitly set to `s`) because the source
resolves exactly that one attribute through a reset-aware helper that, per the spec,
distinguishes "absent" from "explicitly cleared". -/
structure ResourceData where
  key : String
  project_key : String
  project_environments : List String
  description : String
  notes : String
  includes_pattern : String
  excludes_pattern : String
  repo_layout_ref : String
  repositories : List String
  artifactory_requests_can_retrieve_remote_artifacts : Bool
  default_deployment_repo : Option String
  retrieval_cache_period_seconds : Int
deriving DecidableEq, Repr

/-- Go struct `VirtualRepositoryBaseParams` (virtual.go lines 11-25), field for field. -/
structure VirtualRepositoryBaseParams where
  Key : String
  ProjectKey : String
  ProjectEnvironments : List String
  Rclass : String
  PackageType : String
  Description : String
  Notes : String
  IncludesPattern : String
  ExcludesPattern : String
  RepoLayoutRef : String
  Repositories : List String
  ArtifactoryRequestsCanRetrieveRemoteArtifacts : Bool
  DefaultDeploymentRepo : String
deriving DecidableEq, Repr

/-- Go struct `VirtualRepositoryBaseParamsWithRetrievalCachePeriodSecs`
(virtual.go lines 27-30): embeds the base params and adds one `int` field. -/
structure VirtualRepositoryBaseParamsWithRetrievalCachePeriodSecs extends
    VirtualRepositoryBaseParams where
  VirtualRetrievalCachePeriodSecs : Int
deriving DecidableEq, Repr

/-- Method `(bp VirtualRepositoryBaseParams) Id()` (virtual.go lines 32-34). -/
def VirtualRepositoryBaseParams.Id (bp : VirtualRepositoryBaseParams) : String :=
  bp.Key

/-- Go list `VirtualRepoTypesLikeGeneric` (virtual.go lines 36-46). -/
def VirtualRepoTypesLikeGeneric : List String :=
  ["docker", "gems", "generic", "gitlfs", "composer", "p2", "pub", "puppet", "pypi"]

/-- Go list `VirtualRepoTypesLikeGenericWithRetrievalCachePeriodSecs`
(virtual.go lines 48-54). -/
def VirtualRepoTypesLikeGenericWithRetrievalCachePeriodSecs : List String :=
  ["chef", "conan", "conda", "cran", "npm"]

/-- Modelled from the spec: the helper `repository.HandleResetWithNonExistantValue`
belongs to `pkg/artifactory/resource/repository` of this provider but is not part of
the given source slice; only its call site (virtual.go line 156) is.  Per the spec it
is "a reset-aware accessor that distinguishes 'field absent' from 'field explicitly
cleared'", and per its name it substitutes a non-existent value where a plain read
would lose the distinction: a never-set attribute reads as the zero value `""`
(which downstream `omitempty` serialization drops), while an attribute explicitly
cleared to `""` is replaced by a non-existent sentinel string so that the remote API
still sees an update.  The sentinel is modelled as the fixed string
"non-existant-value" (the Go code appends a random number, which only strengthens
non-emptiness and is irrelevant to every property below). -/
def HandleResetWithNonExistantValue (raw : Option String) : String :=
  match raw with
  | none => ""
  | some s => if s = "" then "non-existant-value" else s

/-- Go function `UnpackBaseVirtRepo` (virtual.go lines 140-158): builds the base
params from the accessor.  `Rclass` is the literal "virtual", `PackageType` is the
caller-supplied argument, every other field is the accessor's typed getter result,
with `default_deployment_repo` routed through `HandleResetWithNonExistantValue`. -/
def UnpackBaseVirtRepo (d : ResourceData) (packageType : String) :
    VirtualRepositoryBaseParams :=
  { Key := d.key
    Rclass := "virtual"
    ProjectKey := d.project_key
    ProjectEnvironments := d.project_environments
    PackageType := packageType
    IncludesPattern := d.includes_pattern
    ExcludesPattern := d.excludes_pattern
    RepoLayoutRef := d.repo_layout_ref
    ArtifactoryRequestsCanRetrieveRemoteArtifacts :=
      d.artifactory_requests_can_retrieve_remote_artifacts
    Repositories := d.repositories
    Description := d.description
    Notes := d.notes
    DefaultDeploymentRepo := HandleResetWithNonExistantValue d.default_deployment_repo }

/-- Go function `UnpackBaseVirtRepoWithRetrievalCachePeriodSecs`
(virtual.go lines 160-167): the base unpack plus one extra `GetInt`. -/
def UnpackBaseVirtRepoWithRetrievalCachePeriodSecs (d : ResourceData)
    (packageType : String) : VirtualRepositoryBaseParamsWithRetrievalCachePeriodSecs :=
  { toVirtualRepositoryBaseParams := UnpackBaseVirtRepo d packageType
    VirtualRetrievalCachePeriodSecs := d.retrieval_cache_period_seconds }

/-! ### The attribute-descriptor table `BaseVirtualRepoSchema` -/

/-- The `schema.Type` tags of the Terraform SDK used in virtual.go. -/
inductive SchemaValueType where
  | TypeString
  | TypeBool
  | TypeInt
  | TypeList
  | TypeSet
deriving DecidableEq, Repr

/-- A literal default value as written in a schema declaration. -/
inductive DefaultValue where
  | str (s : String)
  | int (n : Int)
  | boolean (b : Bool)
deriving DecidableEq, Repr

/-- References to the two external `ValidateDiagFunc` values used by the schema;
their implementations live outside this repository slice and are opaque here. -/
inductive DiagValidatorRef where
  | projectKey
  | validateRepoLayoutRefSchemaOverride
deriving DecidableEq, Repr

/-- SDK helper `validation.IntAtLeast(min)`: the produced validator accepts an
integer `v` exactly when `min <= v` (it returns an error for `v < min`).  Modelled
as a boolean acceptance predicate. -/
def intAtLeast (min : Int) : Int → Bool := fun v => decide (min ≤ v)

/-- One `*schema.Schema` attribute descriptor, keeping the fields virtual.go sets:
type, required/optional/computed/force-new flags, element type, `MaxItems`,
default value, and the validators.  Unset Go struct fields default to zero values.
The free-text `Description` strings carry no behavior and are not modelled. -/
structure SchemaAttr where
  AttrType : SchemaValueType
  Required : Bool := false
  Optional : Bool := false
  Computed : Bool := false
  ForceNew : Bool := false
  Elem : Option SchemaValueType := none
  MaxItems : Nat := 0
  Default : Option DefaultValue := none
  ValidateFunc : Option (Int → Bool) := none
  ValidateDiagFunc : Option DiagValidatorRef := none

/-- Go map `BaseVirtualRepoSchema` (virtual.go lines 56-138), as an association
list keyed by attribute name, entries in source order. -/
def BaseVirtualRepoSchema : List (String × SchemaAttr) :=
  [ ("key",
      { AttrType := .TypeString, Required := true, ForceNew := true }),
    ("project_key",
      { AttrType := .TypeString, Optional := true,
        ValidateDiagFunc := some .projectKey }),
    ("project_environments",
      { AttrType := .TypeSet, Elem := some .TypeString, MaxItems := 2,
        Optional := true }),
    ("package_type",
      { AttrType := .TypeString, Required := false, Computed := true,
        ForceNew := true }),
    ("description",
      { AttrType := .TypeString, Optional := true }),
    ("notes",
      { AttrType := .TypeString, Optional := true }),
    ("includes_pattern",
      { AttrType := .TypeString, Optional := true, Default := some (.str "**/*") }),
    ("excludes_pattern",
      { AttrType := .TypeString, Optional := true }),
    ("repo_layout_ref",
      { AttrType := .TypeString, Optional := true,
        ValidateDiagFunc := some .validateRepoLayoutRefSchemaOverride }),
    ("repositories",
      { AttrType := .TypeList, Elem := some .TypeString, Optional := true }),
    ("artifactory_requests_can_retrieve_remote_artifacts",
      { AttrType := .TypeBool, Optional := true, Default := some (.boolean false) }),
    ("default_deployment_repo",
      { AttrType := .TypeString, Optional := true }),
    ("retrieval_cache_period_seconds",
      { AttrType := .TypeInt, Optional := true, Default := some (.int 7200),
        ValidateFunc := some (intAtLeast 0) }) ]

/-- Placeholder descriptor for a failed lookup (never hit on declared names). -/
def emptySchemaAttr : SchemaAttr := { AttrType := .TypeString }

/-- Descriptor lookup by attribute name. -/
def schemaAttr (name : String) : SchemaAttr :=
  (BaseVirtualRepoSchema.lookup name).getD emptySchemaAttr

/-- Runs an attribute's `ValidateFunc` on an integer value; an attribute without a
validator accepts everything, mirroring the SDK. -/
def runValidateFunc (a : SchemaAttr) (v : Int) : Bool :=
  match a.ValidateFunc with
  | some f => f v
  | none => true

/-- Number of distinct elements a `TypeSet` attribute value holds: the SDK hashes
elements with the declared `Set` function (`schema.HashString` here), so duplicates
collapse before the `MaxItems` bound is checked. -/
def setItemCount (xs : List String) : Nat := xs.dedup.length

/-- SDK validation of the `project_environments` attribute: the set passes exactly
when its distinct-element count is within the descriptor's `MaxItems` bound. -/
def acceptsProjectEnvironments (xs : List String) : Bool :=
  decide (setItemCount xs ≤ (schemaAttr "project_environments").MaxItems)

/-- String default recorded in the schema for an attribute (the SDK hands it to
the accessor when the configuration leaves the attribute unset). -/
def schemaDefaultString (name : String) : String :=
  match (schemaAttr name).Default with
  | some (.str s) => s
  | _ => ""

/-- Integer default recorded in the schema for an attribute. -/
def schemaDefaultInt (name : String) : Int :=
  match (schemaAttr name).Default with
  | some (.int n) => n
  | _ => 0

/-! ### JSON marshalling per the structs' json tags -/

/-- JSON values appearing in the marshalled repository payload. -/
inductive JValue where
  | str (s : String)
  | num (n : Int)
  | boolean (b : Bool)
  | arr (xs : List String)
deriving DecidableEq, Repr

/-- A string struct field tagged `,omitempty`: emitted unless it holds `""`. -/
def omitemptyStr (name : String) (v : String) : List (String × JValue) :=
  if v = "" then [] else [(name, .str v)]

/-- A string-slice struct field tagged `,omitempty`: emitted unless empty. -/
def omitemptyList (name : String) (v : List String) : List (String × JValue) :=
  if v = [] then [] else [(name, .arr v)]

/-- A bool struct field tagged `,omitempty`: emitted unless `false`. -/
def omitemptyBool (name : String) (v : Bool) : List (String × JValue) :=
  if v = false then [] else [(name, .boolean v)]

/-- Go `encoding/json` marshalling of `VirtualRepositoryBaseParams` following the
json tags on virtual.go lines 12-24: `projectKey`, `environments` and `rclass`
have no `omitempty` and are always emitted; every other field is dropped when it
holds its zero value.  The result is the ordered list of emitted members. -/
def marshalBaseParams (p : VirtualRepositoryBaseParams) : List (String × JValue) :=
  omitemptyStr "key" p.Key ++
  [("projectKey", JValue.str p.ProjectKey)] ++
  [("environments", JValue.arr p.ProjectEnvironments)] ++
  [("rclass", JValue.str p.Rclass)] ++
  omitemptyStr "packageType" p.PackageType ++
  omitemptyStr "description" p.Description ++
  omitemptyStr "notes" p.Notes ++
  omitemptyStr "includesPattern" p.IncludesPattern ++
  omitemptyStr "excludesPattern" p.ExcludesPattern ++
  omitemptyStr "repoLayoutRef" p.RepoLayoutRef ++
  omitemptyList "repositories" p.Repositories ++
  omitemptyBool "artifactoryRequestsCanRetrieveRemoteArtifacts"
    p.ArtifactoryRequestsCanRetrieveRemoteArtifacts ++
  omitemptyStr "defaultDeploymentRepo" p.DefaultDeploymentRepo

/-- Marshalling of the composite struct (virtual.go lines 27-30): the embedded
base fields come first, then `virtualRetrievalCachePeriodSecs`, which carries no
`omitempty` and is always emitted. -/
def marshalWithRetrievalCachePeriodSecs
    (p : VirtualRepositoryBaseParamsWithRetrievalCachePeriodSecs) :
    List (String × JValue) :=
  marshalBaseParams p.toVirtualRepositoryBaseParams ++
  [("virtualRetrievalCachePeriodSecs", JValue.num p.VirtualRetrievalCachePeriodSecs)]

/-! ### Concrete accessors used as witnesses and counterexamples -/

/-- A concrete accessor whose `default_deployment_repo` is explicitly set to a
non-empty repository name. -/
def sampleResourceData : ResourceData :=
  { key := "npm-virtual"
    project_key := "myproj"
    project_environments := ["DEV", "PROD"]
    description := "virtual npm repo"
    notes := "team notes"
    includes_pattern := "**/*"
    excludes_pattern := "tmp/**"
    repo_layout_ref := "npm-default"
    repositories := ["npm-local", "npm-remote"]
    artifactory_requests_can_retrieve_remote_artifacts := true
    default_deployment_repo := some "releases"
    retrieval_cache_period_seconds := 3600 }

/-- A concrete accessor whose `default_deployment_repo` was explicitly cleared to
the empty string. -/
def clearedDeploymentData : ResourceData :=
  { sampleResourceData with default_deployment_repo := some "" }

/-- A concrete accessor with every attribute left unset, so each value is the
schema default where one is declared and the type's zero value otherwise. -/
def defaultResourceData : ResourceData :=
  { key := ""
    project_key := ""
    project_environments := []
    description := ""
    notes := ""
    includes_pattern := schemaDefaultString "includes_pattern"
    excludes_pattern := ""
    repo_layout_ref := ""
    repositories := []
    artifactory_requests_can_retrieve_remote_artifacts := false
    default_deployment_repo := none
    retrieval_cache_period_seconds := schemaDefaultInt "retrieval_cache_period_seconds" }

/-- A composite parameter value holding the Go zero value in every field. -/
def zeroBaseParams : VirtualRepositoryBaseParamsWithRetrievalCachePeriodSecs :=
  { Key := ""
    ProjectKey := ""
    ProjectEnvironments := []
    Rclass := ""
    PackageType := ""
    Description := ""
    Notes := ""
    IncludesPattern := ""
    ExcludesPattern := ""
    RepoLayoutRef := ""
    Repositories := []
    ArtifactoryRequestsCanRetrieveRemoteArtifacts := false
    DefaultDeploymentRepo := ""
    VirtualRetrievalCachePeriodSecs := 0 }

/-! ### Helper lemmas about the conditional marshalling segments -/

theorem mem_keys_omitemptyStr {m n v : String} :
    m ∈ (omitemptyStr n v).map Prod.fst ↔ m = n ∧ v ≠ "" := by
  unfold omitemptyStr
  split <;> simp_all

theorem mem_keys_omitemptyList {m n : String} {v : List String} :
    m ∈ (omitemptyList n v).map Prod.fst ↔ m = n ∧ v ≠ [] := by
  unfold omitemptyList
  split <;> simp_all

theorem mem_keys_omitemptyBool {m n : String} {v : Bool} :
    m ∈ (omitemptyBool n v).map Prod.fst ↔ m = n ∧ v ≠ false := by
  unfold omitemptyBool
  split <;> simp_all

theorem mem_omitemptyStr {m n v : String} {w : JValue} :
    (m, w) ∈ omitemptyStr n v ↔ m = n ∧ w = .str v ∧ v ≠ "" := by
  unfold omitemptyStr
  split <;> simp_all

theorem mem_omitemptyList {m n : String} {v : List String} {w : JValue} :
    (m, w) ∈ omitemptyList n v ↔ m = n ∧ w = .arr v ∧ v ≠ [] := by
  unfold omitemptyList
  split <;> simp_all

theorem mem_omitemptyBool {m n : String} {v : Bool} {w : JValue} :
    (m, w) ∈ omitemptyBool n v ↔ m = n ∧ w = .boolean v ∧ v ≠ false := by
  unfold omitemptyBool
  split <;> simp_all

/-! ### Claim theorems -/

/-- C1 (counterexample): the claim that `UnpackBaseVirtRepo` copies every field
other than `Rclass` and `PackageType` verbatim from the accessor fails at an
accessor whose `default_deployment_repo` is explicitly set to `""`: the unpacked
`DefaultDeploymentRepo` is not that attribute value `""` but the reset sentinel. -/
theorem unpackBaseVirtRepo_cleared_ddr_not_verbatim :
    clearedDeploymentData.default_deployment_repo = some "" ∧
    (UnpackBaseVirtRepo clearedDeploymentData "generic").DefaultDeploymentRepo ≠ "" :=
  ⟨rfl, by decide⟩

/-- C1 (amended): for every accessor and package-type argument, every field of
`UnpackBaseVirtRepo`'s result other than `Rclass`, `PackageType` and
`DefaultDeploymentRepo` equals the accessor's value for the correspondingly named
attribute verbatim; `Rclass` is the literal "virtual" and `PackageType` is the
caller-supplied argument, both independent of the accessor; and
`DefaultDeploymentRepo` is resolved reset-aware: verbatim for a non-empty value,
the non-existent sentinel for an explicit clear, empty when never set. -/
theorem unpackBaseVirtRepo_field_mapping (d : ResourceData) (pt : String) :
    (UnpackBaseVirtRepo d pt).Key = d.key ∧
    (UnpackBaseVirtRepo d pt).ProjectKey = d.project_key ∧
    (UnpackBaseVirtRepo d pt).ProjectEnvironments = d.project_environments ∧
    (UnpackBaseVirtRepo d pt).Description = d.description ∧
    (UnpackBaseVirtRepo d pt).Notes = d.notes ∧
    (UnpackBaseVirtRepo d pt).IncludesPattern = d.includes_pattern ∧
    (UnpackBaseVirtRepo d pt).ExcludesPattern = d.excludes_pattern ∧
    (UnpackBaseVirtRepo d pt).RepoLayoutRef = d.repo_layout_ref ∧
    (UnpackBaseVirtRepo d pt).Repositories = d.repositories ∧
    (UnpackBaseVirtRepo d pt).ArtifactoryRequestsCanRetrieveRemoteArtifacts =
      d.artifactory_requests_can_retrieve_remote_artifacts ∧
    (UnpackBaseVirtRepo d pt).Rclass = "virtual" ∧
    (UnpackBaseVirtRepo d pt).PackageType = pt ∧
    (∀ s : String, d.default_deployment_repo = some s → s ≠ "" →
      (UnpackBaseVirtRepo d pt).DefaultDeploymentRepo = s) ∧
    (d.default_deployment_repo = some "" →
      (UnpackBaseVirtRepo d pt).DefaultDeploymentRepo = "non-existant-value") ∧
    (d.default_deployment_repo = none →
      (UnpackBaseVirtRepo d pt).DefaultDeploymentRepo = "") := by
  refine ⟨rfl, rfl, rfl, rfl, rfl, rfl, rfl, rfl, rfl, rfl, rfl, rfl, ?_, ?_, ?_⟩
  · intro s hs hne
    simp [UnpackBaseVirtRepo, HandleResetWithNonExistantValue, hs, hne]
  · intro h
    simp [UnpackBaseVirtRepo, HandleResetWithNonExistantValue, h]
  · intro h
    simp [UnpackBaseVirtRepo, HandleResetWithNonExistantValue, h]

/-- C1 (witness): the amended mapping theorem applied to a concrete accessor whose
`default_deployment_repo` is the non-empty string "releases". -/
theorem unpackBaseVirtRepo_field_mapping_witness :
    sampleResourceData.default_deployment_repo = some "releases" ∧
    (UnpackBaseVirtRepo sampleResourceData "npm").DefaultDeploymentRepo = "releases" := by
  have h := unpackBaseVirtRepo_field_mapping sampleResourceData "npm"
  exact ⟨rfl, h.2.2.2.2.2.2.2.2.2.2.2.2.1 "releases" rfl (by decide)⟩

/-- C2 (counterexample): at an accessor whose `default_deployment_repo` was
explicitly cleared to `""`, the marshalled payload does not carry a present-and-
empty `defaultDeploymentRepo` member; it carries the non-empty reset sentinel
(the struct tag `omitempty` makes a present-and-empty string member impossible). -/
theorem marshal_cleared_ddr_not_present_and_empty :
    ("defaultDeploymentRepo", JValue.str "") ∉
      marshalBaseParams (UnpackBaseVirtRepo clearedDeploymentData "generic") ∧
    ("defaultDeploymentRepo", JValue.str "non-existant-value") ∈
      marshalBaseParams (UnpackBaseVirtRepo clearedDeploymentData "generic") := by
  decide

/-- C2 (amended): the emitted payload still distinguishes the two cases, but not as
"present and empty": when `default_deployment_repo` was never set no
`defaultDeploymentRepo` member is emitted, and when it was explicitly set to `""`
the member is emitted with the non-empty reset sentinel as its value. -/
theorem marshal_default_deployment_repo_tristate (d : ResourceData) (pt : String) :
    (d.default_deployment_repo = none →
      "defaultDeploymentRepo" ∉
        (marshalBaseParams (UnpackBaseVirtRepo d pt)).map Prod.fst) ∧
    (d.default_deployment_repo = some "" →
      ("defaultDeploymentRepo", JValue.str "non-existant-value") ∈
        marshalBaseParams (UnpackBaseVirtRepo d pt)) := by
  constructor
  · intro h
    simp [marshalBaseParams, UnpackBaseVirtRepo, HandleResetWithNonExistantValue, h,
      mem_omitemptyStr, mem_omitemptyList, mem_omitemptyBool]
  · intro h
    simp [marshalBaseParams, UnpackBaseVirtRepo, HandleResetWithNonExistantValue, h,
      mem_omitemptyStr]

/-- C2 (witness): the tri-state theorem applied at the never-set accessor and at
the explicitly cleared accessor. -/
theorem marshal_default_deployment_repo_tristate_witness :
    "defaultDeploymentRepo" ∉
      (marshalBaseParams (UnpackBaseVirtRepo defaultResourceData "generic")).map Prod.fst ∧
    ("defaultDeploymentRepo", JValue.str "non-existant-value") ∈
      marshalBaseParams (UnpackBaseVirtRepo clearedDeploymentData "generic") :=
  ⟨(marshal_default_deployment_repo_tristate defaultResourceData "generic").1 rfl,
   (marshal_default_deployment_repo_tristate clearedDeploymentData "generic").2 rfl⟩

/-- C3: the composite result of `UnpackBaseVirtRepoWithRetrievalCachePeriodSecs`
embeds exactly the result of `UnpackBaseVirtRepo` on the same accessor and
argument, and its single extra field is the integer read from the accessor's
`retrieval_cache_period_seconds` attribute. -/
theorem unpackWithRetrievalCachePeriodSecs_refines (d : ResourceData) (pt : String) :
    (UnpackBaseVirtRepoWithRetrievalCachePeriodSecs d pt).toVirtualRepositoryBaseParams =
      UnpackBaseVirtRepo d pt ∧
    (UnpackBaseVirtRepoWithRetrievalCachePeriodSecs d pt).VirtualRetrievalCachePeriodSecs =
      d.retrieval_cache_period_seconds :=
  ⟨rfl, rfl⟩

/-- C4: marshalling omits every `omitempty`-tagged field that holds its Go zero
value, while `projectKey`, `environments`, `rclass` and
`virtualRetrievalCachePeriodSecs` are always emitted, zero-valued or not. -/
theorem marshal_omitempty_policy
    (p : VirtualRepositoryBaseParamsWithRetrievalCachePeriodSecs) :
    "projectKey" ∈ (marshalWithRetrievalCachePeriodSecs p).map Prod.fst ∧
    "environments" ∈ (marshalWithRetrievalCachePeriodSecs p).map Prod.fst ∧
    "rclass" ∈ (marshalWithRetrievalCachePeriodSecs p).map Prod.fst ∧
    "virtualRetrievalCachePeriodSecs" ∈
      (marshalWithRetrievalCachePeriodSecs p).map Prod.fst ∧
    (p.Key = "" → "key" ∉ (marshalWithRetrievalCachePeriodSecs p).map Prod.fst) ∧
    (p.PackageType = "" →
      "packageType" ∉ (marshalWithRetrievalCachePeriodSecs p).map Prod.fst) ∧
    (p.Description = "" →
      "description" ∉ (marshalWithRetrievalCachePeriodSecs p).map Prod.fst) ∧
    (p.Notes = "" → "notes" ∉ (marshalWithRetrievalCachePeriodSecs p).map Prod.fst) ∧
    (p.IncludesPattern = "" →
      "includesPattern" ∉ (marshalWithRetrievalCachePeriodSecs p).map Prod.fst) ∧
    (p.ExcludesPattern = "" →
      "excludesPattern" ∉ (marshalWithRetrievalCachePeriodSecs p).map Prod.fst) ∧
    (p.RepoLayoutRef = "" →
      "repoLayoutRef" ∉ (marshalWithRetrievalCachePeriodSecs p).map Prod.fst) ∧
    (p.Repositories = [] →
      "repositories" ∉ (marshalWithRetrievalCachePeriodSecs p).map Prod.fst) ∧
    (p.ArtifactoryRequestsCanRetrieveRemoteArtifacts = false →
      "artifactoryRequestsCanRetrieveRemoteArtifacts" ∉
        (marshalWithRetrievalCachePeriodSecs p).map Prod.fst) ∧
    (p.DefaultDeploymentRepo = "" →
      "defaultDeploymentRepo" ∉ (marshalWithRetrievalCachePeriodSecs p).map Prod.fst) := by
  refine ⟨?_, ?_, ?_, ?_, ?_, ?_, ?_, ?_, ?_, ?_, ?_, ?_, ?_, ?_⟩ <;>
    intros <;>
    simp_all [marshalWithRetrievalCachePeriodSecs, marshalBaseParams,
      mem_omitemptyStr, mem_omitemptyList, mem_omitemptyBool]

/-- C4 (witness): the omission policy applied to the all-zero composite value:
`rclass` is still emitted while `key` is omitted. -/
theorem marshal_omitempty_policy_witness :
    "rclass" ∈ (marshalWithRetrievalCachePeriodSecs zeroBaseParams).map Prod.fst ∧
    "key" ∉ (marshalWithRetrievalCachePeriodSecs zeroBaseParams).map Prod.fst := by
  have h := marshal_omitempty_policy zeroBaseParams
  exact ⟨h.2.2.1, h.2.2.2.2.1 rfl⟩

/-- C5: no package-type string belongs to both `VirtualRepoTypesLikeGeneric` and
`VirtualRepoTypesLikeGenericWithRetrievalCachePeriodSecs`. -/
theorem virtualRepoTypes_disjoint :
    ∀ t ∈ VirtualRepoTypesLikeGeneric,
      t ∉ VirtualRepoTypesLikeGenericWithRetrievalCachePeriodSecs := by
  decide

/-- C5 (witness): the disjointness theorem applied to the member "docker". -/
theorem virtualRepoTypes_disjoint_witness :
    "docker" ∈ VirtualRepoTypesLikeGeneric ∧
    "docker" ∉ VirtualRepoTypesLikeGenericWithRetrievalCachePeriodSecs :=
  ⟨by decide, virtualRepoTypes_disjoint "docker" (by decide)⟩

/-- C6: the schema records `"**/*"` as the default of `includes_pattern` and
`7200` as the default of `retrieval_cache_period_seconds`, and an accessor whose
attribute is unset (hence reads as the schema default) unpacks to those values. -/
theorem schema_defaults_includes_pattern_cache_period :
    (schemaAttr "includes_pattern").Default = some (.str "**/*") ∧
    (schemaAttr "retrieval_cache_period_seconds").Default = some (.int 7200) ∧
    ∀ (d : ResourceData) (pt : String),
      (d.includes_pattern = schemaDefaultString "includes_pattern" →
        (UnpackBaseVirtRepo d pt).IncludesPattern = "**/*") ∧
      (d.retrieval_cache_period_seconds =
          schemaDefaultInt "retrieval_cache_period_seconds" →
        (UnpackBaseVirtRepoWithRetrievalCachePeriodSecs d
            pt).VirtualRetrievalCachePeriodSecs = 7200) := by
  refine ⟨rfl, rfl, fun d pt => ⟨?_, ?_⟩⟩
  · intro h
    have hd : schemaDefaultString "includes_pattern" = "**/*" := rfl
    simp [UnpackBaseVirtRepo, h, hd]
  · intro h
    have hd : schemaDefaultInt "retrieval_cache_period_seconds" = 7200 := rfl
    simp [UnpackBaseVirtRepoWithRetrievalCachePeriodSecs, h, hd]

/-- C6 (witness): the defaults theorem applied to the fully unset accessor. -/
theorem schema_defaults_witness :
    (UnpackBaseVirtRepo defaultResourceData "generic").IncludesPattern = "**/*" ∧
    (UnpackBaseVirtRepoWithRetrievalCachePeriodSecs defaultResourceData
        "generic").VirtualRetrievalCachePeriodSecs = 7200 := by
  have h := schema_defaults_includes_pattern_cache_period
  exact ⟨(h.2.2 defaultResourceData "generic").1 rfl,
         (h.2.2 defaultResourceData "generic").2 rfl⟩

/-- C7: the validator the schema attaches to `retrieval_cache_period_seconds`
accepts an integer exactly when it is at least 0. -/
theorem retrieval_cache_period_validation (v : Int) :
    runValidateFunc (schemaAttr "retrieval_cache_period_seconds") v = true ↔ 0 ≤ v := by
  have h : (schemaAttr "retrieval_cache_period_seconds").ValidateFunc =
      some (intAtLeast 0) := rfl
  simp [runValidateFunc, h, intAtLeast]

/-- C7 (witness): the validation theorem at the boundary: 0 is accepted and -1 is
rejected. -/
theorem retrieval_cache_period_validation_witness :
    runValidateFunc (schemaAttr "retrieval_cache_period_seconds") 0 = true ∧
    runValidateFunc (schemaAttr "retrieval_cache_period_seconds") (-1) ≠ true :=
  ⟨(retrieval_cache_period_validation 0).mpr (by decide),
   fun h => absurd ((retrieval_cache_period_validation (-1)).mp h) (by decide)⟩

/-- C8: `project_environments` is a set attribute with `MaxItems` 2, and a
configuration value passes its validation exactly when it holds at most 2
distinct strings. -/
theorem project_environments_max_two :
    (schemaAttr "project_environments").MaxItems = 2 ∧
    (schemaAttr "project_environments").AttrType = SchemaValueType.TypeSet ∧
    ∀ xs : List String, acceptsProjectEnvironments xs = true ↔ setItemCount xs ≤ 2 := by
  refine ⟨rfl, rfl, fun xs => ?_⟩
  have h : (schemaAttr "project_environments").MaxItems = 2 := rfl
  simp [acceptsProjectEnvironments, h]

/-- C8 (witness): the bound theorem on concrete sets: two distinct values pass,
a third distinct value is rejected. -/
theorem project_environments_max_two_witness :
    acceptsProjectEnvironments ["DEV", "PROD"] = true ∧
    acceptsProjectEnvironments ["DEV", "PROD", "QA"] ≠ true := by
  have h := project_environments_max_two
  exact ⟨(h.2.2 ["DEV", "PROD"]).mpr (by decide),
         fun hc => absurd ((h.2.2 ["DEV", "PROD", "QA"]).mp hc) (by decide)⟩

/-- C9: the descriptor table's names are pairwise distinct, cover exactly the 13
declared attributes in source order, and no descriptor sets both `Required` and
`Computed`. -/
theorem schema_descriptor_invariants :
    (BaseVirtualRepoSchema.map Prod.fst).Nodup ∧
    BaseVirtualRepoSchema.map Prod.fst =
      ["key", "project_key", "project_environments", "package_type", "description",
       "notes", "includes_pattern", "excludes_pattern", "repo_layout_ref",
       "repositories", "artifactory_requests_can_retrieve_remote_artifacts",
       "default_deployment_repo", "retrieval_cache_period_seconds"] ∧
    BaseVirtualRepoSchema.all (fun e => !(e.2.Required && e.2.Computed)) = true :=
  ⟨by decide, rfl, rfl⟩

/-- C10: `UnpackBaseVirtRepo` is independent of the accessor's
`retrieval_cache_period_seconds` attribute: two accessors agreeing on every other
attribute unpack to equal base parameters. -/
theorem unpackBase_independent_of_cache_period
    (d1 d2 : ResourceData) (pt : String)
    (hkey : d1.key = d2.key)
    (hpk : d1.project_key = d2.project_key)
    (hpe : d1.project_environments = d2.project_environments)
    (hdesc : d1.description = d2.description)
    (hnotes : d1.notes = d2.notes)
    (hinc : d1.includes_pattern = d2.includes_pattern)
    (hexc : d1.excludes_pattern = d2.excludes_pattern)
    (hlay : d1.repo_layout_ref = d2.repo_layout_ref)
    (hrepos : d1.repositories = d2.repositories)
    (hart : d1.artifactory_requests_can_retrieve_remote_artifacts =
      d2.artifactory_requests_can_retrieve_remote_artifacts)
    (hddr : d1.default_deployment_repo = d2.default_deployment_repo) :
    UnpackBaseVirtRepo d1 pt = UnpackBaseVirtRepo d2 pt := by
  simp [UnpackBaseVirtRepo, hkey, hpk, hpe, hdesc, hnotes, hinc, hexc, hlay,
    hrepos, hart, hddr]

/-- A copy of the unset accessor with the cache period raised, used to witness
that the base unpack ignores that attribute. -/
def raisedCachePeriodData : ResourceData :=
  { defaultResourceData with retrieval_cache_period_seconds := 9999 }

/-- C10 (witness): the independence theorem applied to two concrete accessors
that differ only in `retrieval_cache_period_seconds` (7200 vs 9999). -/
theorem unpackBase_independent_of_cache_period_witness :
    UnpackBaseVirtRepo defaultResourceData "npm" =
      UnpackBaseVirtRepo raisedCachePeriodData "npm" :=
  unpackBase_independent_of_cache_period defaultResourceData raisedCachePeriodData
    "npm" rfl rfl rfl rfl rfl rfl rfl rfl rfl rfl rfl

end Virtual
